import Mathlib

/-!
Verification of the meme-trading-bot scoring core.

Shallow embedding of src/src/scoring/comprehensive_scorer.py,
src/src/main.py (paper-trading open logic), src/src/storage/database.py
(paper_trades table semantics as declared by its DDL) and
src/src/analytics/price_tracker.py (timing-pattern bucketizer).

Modelling conventions:
* Python float arithmetic is modelled with the rationals; every constant in
  the translated code is an exact decimal, so no rounding behaviour of the
  scorer is lost.
* A token snapshot (the token_data argument, a Dict of str to Any) is
  modelled by the dynamic value type PyVal.  Field access with .get,
  numeric comparison, arithmetic and truthiness follow Python semantics on
  this value domain; an operation Python would raise on (attribute access
  on a non-dict, ordering a string against a number, dividing by zero)
  produces the fault outcome, which the per-category try/except handlers
  of the source convert into a diagnostic flag.  String repetition by
  multiplication is modelled as a fault: on every translated path a
  non-numeric operand already faults at an ordering test in or before the
  same statement, so the observable category result is unchanged.
* Mutation of the local variables score / flags / strengths inside a
  category scorer is explicit state passing (PyM below); the early return
  of the honeypot branch and the caught exception are the two non-ok
  control outcomes.
* Interpolated numeric text inside strength messages (f-strings) is elided
  from the string literals; no theorem below depends on that text.
* print statements, logging and Telegram/database I/O that does not affect
  the scoring result are omitted.
-/

/-- Dynamic Python value: the payload of token_data, market_context and
their nested dictionaries. -/
inductive PyVal where
  | none
  | bool (b : Bool)
  | num (q : ℚ)
  | str (s : String)
  | dict (entries : List (String × PyVal))
deriving Repr

/-- First-match association-list lookup, the order a Python dict literal
presents its keys. -/
def plookup (l : List (String × PyVal)) (k : String) : Option PyVal :=
  match l with
  | [] => Option.none
  | (k1, v) :: t => if k1 = k then Option.some v else plookup t k

/-- Python truthiness on the modelled value domain. -/
def pyTruthy : PyVal → Bool
  | .none => false
  | .bool b => b
  | .num q => q != 0
  | .str s => s != ""
  | .dict l => !l.isEmpty

/-- Python equality on the modelled value domain.  bool is a numeric type
in Python, so it compares equal to its numeric value.  The translated code
only ever compares a fetched value against a string or number literal; the
remaining cross-type cases are unequal, as in Python. -/
def pyEq : PyVal → PyVal → Bool
  | .num a, .num b => a == b
  | .num a, .bool b => a == (if b then 1 else 0)
  | .bool a, .num b => (if a then (1 : ℚ) else 0) == b
  | .bool a, .bool b => a == b
  | .str a, .str b => a == b
  | .none, .none => true
  | _, _ => false

/-- Mutable state of one category scorer: the score accumulator and the
flags / strengths lists. -/
structure ScSt where
  score : ℚ
  flags : List String
  strengths : List String
deriving DecidableEq, Repr

def ScSt.init : ScSt := ⟨0, [], []⟩

/-- Control outcome of a piece of translated Python: normal value, the
early return of the honeypot branch, or a raised exception. -/
inductive POut (α : Type) where
  | ok (a : α)
  | ret
  | fault
deriving Repr

/-- Whether a control outcome is a raised exception. -/
def POut.isFault {α : Type} : POut α → Bool
  | .fault => true
  | _ => false

/-- State-passing fallible computation: statements of a category scorer
run in this monad.  A fault keeps the state accumulated so far, exactly as
a Python exception leaves the local variables of the try block. -/
def PyM (α : Type) : Type := ScSt → ScSt × POut α

instance : Monad PyM where
  pure a := fun s => (s, .ok a)
  bind x f := fun s =>
    match x s with
    | (s1, .ok a) => f a s1
    | (s1, .ret) => (s1, .ret)
    | (s1, .fault) => (s1, .fault)

def addScore (q : ℚ) : PyM Unit := fun s => ({ s with score := s.score + q }, .ok ())

def addFlag (f : String) : PyM Unit := fun s => ({ s with flags := s.flags ++ [f] }, .ok ())

def addStrength (t : String) : PyM Unit := fun s => ({ s with strengths := s.strengths ++ [t] }, .ok ())

/-- The early return statement of the honeypot branch. -/
def pret : PyM Unit := fun s => (s, .ret)

/-- A raised Python exception. -/
def pfault {α : Type} : PyM α := fun s => (s, .fault)

/-- d.get(k, dflt): dictionary lookup with default; AttributeError (fault)
when the receiver is not a dict. -/
def pyGet (d : PyVal) (k : String) (dflt : PyVal) : PyM PyVal :=
  match d with
  | .dict l => pure ((plookup l k).getD dflt)
  | _ => pfault

/-- Coerce a value to a number for ordering and arithmetic; TypeError
(fault) for non-numeric values, with bool counting as 0 or 1 as in
Python. -/
def asNum (v : PyVal) : PyM ℚ :=
  match v with
  | .num q => pure q
  | .bool b => pure (if b then 1 else 0)
  | _ => pfault

def pyLt (a b : PyVal) : PyM Bool := do
  let x ← asNum a
  let y ← asNum b
  pure (decide (x < y))

def pyLe (a b : PyVal) : PyM Bool := do
  let x ← asNum a
  let y ← asNum b
  pure (decide (x ≤ y))

def pyGt (a b : PyVal) : PyM Bool := do
  let x ← asNum a
  let y ← asNum b
  pure (decide (y < x))

def pyGe (a b : PyVal) : PyM Bool := do
  let x ← asNum a
  let y ← asNum b
  pure (decide (y ≤ x))

def pyMul (a b : PyVal) : PyM PyVal := do
  let x ← asNum a
  let y ← asNum b
  pure (.num (x * y))

def pySub (a b : PyVal) : PyM PyVal := do
  let x ← asNum a
  let y ← asNum b
  pure (.num (x - y))

/-- Division; ZeroDivisionError (fault) on a zero denominator. -/
def pyDiv (a b : PyVal) : PyM PyVal := do
  let x ← asNum a
  let y ← asNum b
  if y = 0 then pfault else pure (.num (x / y))

/-- Short-circuit Python and over fallible conditions. -/
def pandM (a b : PyM Bool) : PyM Bool := do
  let x ← a
  if x then b else pure false

/-- Short-circuit Python or over fallible conditions. -/
def porM (a b : PyM Bool) : PyM Bool := do
  let x ← a
  if x then pure true else b

/-- Run one category scorer body under its try/except: a fault appends
the diagnostic flag of that category and the partially accumulated
score / flags / strengths are returned, exactly as the source handlers
do. -/
def runCat (body : PyM Unit) (errFlag : String) : ℚ × List String × List String :=
  match body ScSt.init with
  | (s, .ok _) => (s.score, s.flags, s.strengths)
  | (s, .ret) => (s.score, s.flags, s.strengths)
  | (s, .fault) => (s.score, s.flags ++ [errFlag], s.strengths)

/-- Honeypot sub-check of _score_onchain_health: the first, safety
critical step of the Safety category. -/
def honeypotStep (token_data : PyVal) : PyM Unit := do
  let honeypot_status ← pyGet token_data "honeypot_check" (.dict [])
  let is_honeypot ← pyGet honeypot_status "is_honeypot" (.bool true)
  let can_sell ← pyGet honeypot_status "can_sell" (.bool false)
  if !(pyTruthy is_honeypot) && pyTruthy can_sell then do
    addScore 8
    addStrength "✅ SAFE TO TRADE - Not a honeypot"
  else if pyTruthy can_sell then do
    addScore 5
    addStrength "⚠️ Can sell but check carefully"
  else do
    addFlag "CRITICAL_HONEYPOT"
    pret

/-- Remaining sub-checks of _score_onchain_health after the honeypot
gate: taxes, transaction limits, pause function, liquidity, lock status,
ownership and mint capability. -/
def onchainRest (token_data : PyVal) : PyM Unit := do
  let buy_tax ← pyGet token_data "buy_tax_percentage" (.num 0)
  let sell_tax ← pyGet token_data "sell_tax_percentage" (.num 0)
  if (← pandM (pyLe buy_tax (.num 5)) (pyLe sell_tax (.num 10))) then do
    addScore 4
    addStrength "💰 Low taxes"
  else if (← pandM (pyLe buy_tax (.num 10)) (pyLe sell_tax (.num 20))) then do
    addScore 2
    addStrength "📊 Moderate taxes"
  else if (← pyGt sell_tax (.num 30)) then
    addFlag "extreme_sell_tax"
  let max_tx_amount ← pyGet token_data "max_transaction_percentage" (.num 100)
  if (← pyGe max_tx_amount (.num 1)) then do
    addScore 2
    addStrength "🔄 No restrictive transaction limits"
  else if (← pyLt max_tx_amount (.num 0.1)) then
    addFlag "restrictive_tx_limits"
  let has_pause_function ← pyGet token_data "has_pause_function" (.bool false)
  if !(pyTruthy has_pause_function) then do
    addScore 1
    addStrength "🔒 No pause function"
  else
    addFlag "has_pause_risk"
  let liquidity_info ← pyGet token_data "liquidity" (.dict [])
  let pool_size ← pyGet liquidity_info "usd" (.num 0)
  let is_locked ← pyGet liquidity_info "locked" (.bool false)
  if (← pyGe pool_size (.num 20000)) then do
    addScore 3
    addStrength "💧 Sufficient liquidity for trading"
  else if (← pyGe pool_size (.num 5000)) then do
    addScore 2
    addStrength "🌊 Basic liquidity available"
  else if (← pyGe pool_size (.num 1000)) then do
    addScore 1
    addStrength "💦 Minimal liquidity"
  else
    addFlag "insufficient_liquidity"
  if pyTruthy is_locked then do
    addScore 2
    addStrength "🔐 Liquidity locked - Rug protection"
  else
    addFlag "unlocked_liquidity"
  let contract_info ← pyGet token_data "contract" (.dict [])
  let ownership ← pyGet contract_info "ownership" (.str "unknown")
  if pyEq ownership (.str "renounced") then do
    addScore 3
    addStrength "👤 Ownership renounced - Decentralized"
  else if pyEq ownership (.str "multisig") then do
    addScore 1
    addStrength "🤝 Multi-signature ownership"
  else
    addFlag "centralized_control"
  let can_mint ← pyGet contract_info "can_mint" (.bool true)
  if !(pyTruthy can_mint) then do
    addScore 2
    addStrength "🚫 No mint function - Fixed supply"
  else
    addFlag "unlimited_minting"

/-- Body of _score_onchain_health: honeypot gate then the remaining
sub-checks. -/
def onchainBody (token_data : PyVal) : PyM Unit := do
  honeypotStep token_data
  onchainRest token_data

/-- Method _score_onchain_health (Safety / on-chain health category, 25 point
budget). -/
def score_onchain_health (token_data : PyVal) : ℚ × List String × List String :=
  runCat (onchainBody token_data) "safety_analysis_error"

example : score_onchain_health (.dict [("honeypot_check",
    .dict [("is_honeypot", .bool true), ("can_sell", .bool false)])]) =
    (0, ["CRITICAL_HONEYPOT"], []) := by decide

/-- Body of _score_market_dynamics (volume surge, intensity, momentum,
whale activity, liquidity/slippage). -/
def marketDynamicsBody (token_data : PyVal) : PyM Unit := do
  let volume_24h ← pyGet token_data "volume_24h_usd" (.num 0)
  let volume_1h ← pyGet token_data "volume_1h_usd" (.num 0)
  let volume_5m ← pyGet token_data "volume_5m_usd" (.num 0)
  let market_cap ← pyGet token_data "market_cap_usd" (.num 1)
  if (← pandM (pyGt volume_5m (.num 0)) (pyGt volume_1h (.num 0))) then do
    let five_min_acceleration ← pyDiv (← pyMul volume_5m (.num 12)) volume_1h
    if (← pyGt five_min_acceleration (.num 10)) then do
      addScore 8
      addStrength "🚨 VOLUME EXPLOSION - EARLY DETECTION"
    else if (← pyGt five_min_acceleration (.num 5)) then do
      addScore 6
      addStrength "🔥 Early volume surge detected"
    else if (← pyGt five_min_acceleration (.num 3)) then do
      addScore 4
      addStrength "Strong early volume surge"
  else if (← pandM (pyGt volume_1h (.num 0)) (pyGt volume_24h (.num 0))) then do
    let hourly_acceleration ← pyDiv (← pyMul volume_1h (.num 24)) volume_24h
    if (← pyGt hourly_acceleration (.num 15)) then do
      addScore 6
      addStrength "MASSIVE hourly volume acceleration"
    else if (← pyGt hourly_acceleration (.num 8)) then do
      addScore 4
      addStrength "Strong hourly volume acceleration"
    else if (← pyGt hourly_acceleration (.num 3)) then do
      addScore 2
      addStrength "Decent volume acceleration"
    else
      addFlag "weak_volume_surge"
  if (← pyGt market_cap (.num 0)) then do
    let volume_intensity ← pyDiv volume_24h market_cap
    if (← pyGt volume_intensity (.num 1.2)) then do
      addScore 4
      addStrength "💥 INSANE VOLUME INTENSITY - Traders going crazy"
    else if (← pyGt volume_intensity (.num 0.7)) then do
      addScore 2
      addStrength "🔥 High volume intensity"
    else if (← pyGt volume_intensity (.num 0.3)) then do
      addScore 1
      addStrength "📊 Decent volume intensity"
    else if (← pyLt volume_intensity (.num 0.1)) then
      addFlag "dead_volume"
  let price_change_5m ← pyGet token_data "price_change_5m" (.num 0)
  let price_change_15m ← pyGet token_data "price_change_15m" (.num 0)
  let price_change_1h ← pyGet token_data "price_change_1h" (.num 0)
  if (← pyGt price_change_5m (.num 10)) then do
    addScore 2
    addStrength "⚡ LIGHTNING PUMP - 10 percent plus in 5 minutes"
  if (← pyGt price_change_15m (.num 20)) then do
    addScore 1
    addStrength "🔥 15m momentum"
  if (← pyGt price_change_1h (.num 30)) then do
    addScore 1
    addStrength "💎 1h pump trend"
  let whale_data ← pyGet token_data "whale_activity" (.dict [])
  let large_buys_1h ← pyGet whale_data "large_buys_1h" (.num 0)
  let large_sells_1h ← pyGet whale_data "large_sells_1h" (.num 0)
  if (← pyGt large_buys_1h (← pyMul large_sells_1h (.num 2))) then do
    addScore 2
    addStrength "🐋 WHALE ACCUMULATION - Large wallets buying"
  if (← pyGt (← pyGet whale_data "new_large_holders_1h" (.num 0)) (.num 1)) then do
    addScore 1
    addStrength "🆕 New whales entering"
  let liquidity ← pyGet token_data "liquidity_usd" (.num 0)
  let slippage_5k ← pyGet token_data "slippage_5k_usd" (.num 100)
  if (← pandM (pyGt liquidity (.num 30000)) (pyLt slippage_5k (.num 15))) then do
    addScore 2
    addStrength "💧 Good liquidity - Can actually trade"
  else if (← pandM (pyGt liquidity (.num 7000)) (pyLt slippage_5k (.num 35))) then do
    addScore 1
    addStrength "🌊 Adequate liquidity"
  else
    if (← porM (pyLt liquidity (.num 7000)) (pyGt slippage_5k (.num 35))) then
      addFlag "high_slippage"
  let liquidity_growth ← pyGet token_data "liquidity_growth_1h" (.num 0)
  if (← pyGt liquidity_growth (.num 50)) then do
    addScore 1
    addStrength "💧 Growing liquidity pool"

/-- Method _score_market_dynamics (Market Dynamics category, 20 point budget). -/
def score_market_dynamics (token_data : PyVal) : ℚ × List String × List String :=
  runCat (marketDynamicsBody token_data) "market_analysis_error"

/-- Body of _score_community_signals (Twitter, Reddit, Telegram,
influencer, meme virality, hashtags, sentiment, growth pattern). -/
def communitySignalsBody (token_data : PyVal) : PyM Unit := do
  let social_data ← pyGet token_data "social" (.dict [])
  let twitter_mentions_1h ← pyGet social_data "twitter_mentions_1h" (.num 0)
  if (← pyGt twitter_mentions_1h (.num 500)) then do
    addScore 7
    addStrength "🔥 TWITTER EXPLOSION - 500 plus mentions in 1 hour"
  else if (← pyGt twitter_mentions_1h (.num 300)) then do
    addScore 6
    addStrength "🔥 TWITTER EXPLOSION - 300 plus mentions in 1 hour"
  else if (← pyGt twitter_mentions_1h (.num 150)) then do
    addScore 5
    addStrength "Strong Twitter momentum"
  else if (← pyGt twitter_mentions_1h (.num 75)) then do
    addScore 4
    addStrength "Growing Twitter buzz"
  else if (← pyGt twitter_mentions_1h (.num 30)) then do
    addScore 3
    addStrength "Early Twitter activity"
  else if (← pyGt twitter_mentions_1h (.num 10)) then do
    addScore 2
    addStrength "Some Twitter activity"
  else if (← pyGt twitter_mentions_1h (.num 0)) then do
    addScore 1
    addStrength "Any Twitter activity"
  let twitter_engagement_1h ← pyGet social_data "twitter_engagement_1h" (.num 0)
  if (← pyGt twitter_engagement_1h (.num 5000)) then do
    addScore 4
    addStrength "💬 INSANE ENGAGEMENT - Real community interest"
  else if (← pyGt twitter_engagement_1h (.num 2500)) then do
    addScore 3
    addStrength "💬 High engagement"
  else if (← pyGt twitter_engagement_1h (.num 1000)) then do
    addScore 2
    addStrength "👥 High social engagement"
  else if (← pyGt twitter_engagement_1h (.num 300)) then do
    addScore 1
    addStrength "👀 Noticeable engagement"
  let reddit_mentions_1h ← pyGet social_data "reddit_mentions_1h" (.num 0)
  if (← pyGt reddit_mentions_1h (.num 20)) then do
    addScore 2
    addStrength "🔴 REDDIT BUZZ - Viral potential"
  else if (← pyGt reddit_mentions_1h (.num 5)) then do
    addScore 1
    addStrength "📱 Reddit community interest"
  let telegram_activity_1h ← pyGet social_data "telegram_activity_1h" (.num 0)
  if (← pyGt telegram_activity_1h (.num 200)) then do
    addScore 2
    addStrength "💬 TELEGRAM EXPLOSION - Community going crazy"
  else if (← pyGt telegram_activity_1h (.num 50)) then do
    addScore 1
    addStrength "📞 Active Telegram discussion"
  let influencer_mentions ← pyGet social_data "influencer_mentions_24h" (.num 0)
  let influencer_quality ← pyGet social_data "influencer_quality" (.str "none")
  if (← pandM (pure (pyEq influencer_quality (.str "major"))) (pyGt influencer_mentions (.num 0))) then do
    addScore 2
    addStrength "🌟 MAJOR INFLUENCER MENTION - Potential massive pump"
  else if (← pyGt influencer_mentions (.num 0)) then do
    addScore 1
    addStrength "👤 Some influencer mention"
  let meme_viral_score ← pyGet social_data "meme_viral_score" (.num 0)
  if (← pyGe meme_viral_score (.num 8)) then do
    addScore 2
    addStrength "🚀 HIGH VIRAL POTENTIAL - Quality meme content"
  else if (← pyGe meme_viral_score (.num 5)) then do
    addScore 1
    addStrength "😂 Good meme quality"
  let trending_hashtags ← pyGet social_data "trending_hashtag_count" (.num 0)
  if (← pyGt trending_hashtags (.num 0)) then do
    addScore 1
    addStrength "📈 Trending hashtag presence"
  let sentiment_momentum ← pyGet social_data "sentiment_momentum_1h" (.num 0)
  if (← pyGt sentiment_momentum (.num 0.1)) then do
    addScore 1
    addStrength "😍 SENTIMENT SURGE - Hype building"
  let growth_pattern ← pyGet social_data "growth_pattern" (.str "unknown")
  if pyEq growth_pattern (.str "viral") then do
    addScore 1
    addStrength "🌊 VIRAL GROWTH PATTERN"
  else if pyEq growth_pattern (.str "artificial") then
    addFlag "artificial_social_growth"

/-- Method _score_community_signals (Community category, 20 point budget). -/
def score_community_signals (token_data : PyVal) : ℚ × List String × List String :=
  runCat (communitySignalsBody token_data) "social_analysis_error"

/-- Wall-clock context for the two scorers that read the system time
(time.time and datetime.utcnow in the source). -/
structure TimeCtx where
  hour_utc : Nat
  weekday : Nat
  now_sec : ℚ
deriving DecidableEq, Repr

/-- Body of _score_technical_foundation (discovery timing, listings,
market-cap window, holders, momentum, project transparency). -/
def technicalFoundationBody (tc : TimeCtx) (token_data : PyVal) : PyM Unit := do
  let creation_time ← pyGet token_data "created_timestamp" (.num 0)
  if (← pyGt creation_time (.num 0)) then do
    let age_hours ← pyDiv (← pySub (.num tc.now_sec) creation_time) (.num 3600)
    let age_days ← pyDiv age_hours (.num 24)
    if (← pyLt age_hours (.num 1)) then do
      addScore 4
      addStrength "🆕 ULTRA-FRESH - Less than 1 hour old"
    else if (← pyLt age_hours (.num 6)) then do
      addScore 3
      addStrength "⚡ Very early discovery - Under 6 hours"
    else if (← pyLt age_hours (.num 24)) then do
      addScore 2
      addStrength "🌅 Early discovery - Under 24 hours"
    else if (← pyLt age_days (.num 7)) then do
      addScore 1
      addStrength "📅 Recent launch - Under 1 week"
    else if (← pyGt age_days (.num 30)) then
      addFlag "old_token"
  let listing_data ← pyGet token_data "listings" (.dict [])
  let major_cex_listed ← pyGet listing_data "major_cex" (.bool false)
  let small_cex_listed ← pyGet listing_data "small_cex" (.bool false)
  let dex_only := !(pyTruthy major_cex_listed) && !(pyTruthy small_cex_listed)
  if dex_only then do
    addScore 3
    addStrength "💎 DEX-ONLY - Pre-CEX pump potential"
  else if pyTruthy small_cex_listed && !(pyTruthy major_cex_listed) then do
    addScore 1
    addStrength "🏪 Small CEX listed - Room for major exchange pump"
  else
    addFlag "already_mainstream"
  let influencer_coverage ← pyGet token_data "influencer_coverage" (.str "none")
  if pyEq influencer_coverage (.str "none") then do
    addScore 1
    addStrength "📢 Pre-influencer discovery - High upside potential"
  else if pyEq influencer_coverage (.str "emerging") then
    addScore 0.5
  let market_cap ← pyGet token_data "market_cap_usd" (.num 0)
  if (← pandM (pyLe (.num 1000) market_cap) (pyLe market_cap (.num 100000))) then do
    addScore 3
    addStrength "🎯 PERFECT MARKET CAP - Huge pump potential"
  else if (← pandM (pyLe (.num 100000) market_cap) (pyLe market_cap (.num 1000000))) then do
    addScore 2
    addStrength "💰 Good market cap for growth"
  else if (← pandM (pyLe (.num 1000000) market_cap) (pyLe market_cap (.num 10000000))) then do
    addScore 1
    addStrength "📈 Moderate growth potential"
  else if (← pyGt market_cap (.num 50000000)) then
    addFlag "high_market_cap"
  let holder_count ← pyGet token_data "holder_count" (.num 999999)
  if (← pyLt holder_count (.num 100)) then do
    addScore 1
    addStrength "👥 Low holder count - Room for massive growth"
  else if (← pyGt holder_count (.num 10000)) then
    addFlag "saturated_holders"
  let activity_surge ← pyGet token_data "activity_surge_24h" (.bool false)
  if pyTruthy activity_surge then do
    addScore 2
    addStrength "🌊 ACTIVITY SURGE - Momentum building"
  let smart_money_interest ← pyGet token_data "smart_money_wallets" (.num 0)
  if (← pyGt smart_money_interest (.num 3)) then do
    addScore 1
    addStrength "🧠 Smart money accumulating"
  let dev_activity ← pyGet (← pyGet token_data "project" (.dict [])) "development_activity" (.dict [])
  match dev_activity with
  | .dict _ =>
    if (← porM (pure (pyEq (← pyGet dev_activity "github_commits" (.str ""))
          (.str "active")))
        (pure (pyTruthy (← pyGet dev_activity "regular_updates" (.bool false))))) then do
      addScore 1
      addStrength "💻 Active development - Regular updates"
  | _ => pure ()
  let project_info ← pyGet token_data "project" (.dict [])
  if pyEq (← pyGet project_info "website_quality" (.str "")) (.str "professional") then do
    addScore 2
    addStrength "🌐 Professional website"
  else if pyEq (← pyGet project_info "website_quality" (.str "")) (.str "basic") then do
    addScore 1
    addStrength "🌐 Basic website"
  let dq ← pyGet project_info "documentation_quality" (.str "")
  if pyEq dq (.str "basic") || pyEq dq (.str "clear") || pyEq dq (.str "detailed") then do
    addScore 2
    addStrength "📄 Has documentation"
  if pyTruthy (← pyGet project_info "team_public" (.bool false)) then do
    addScore 1
    addStrength "👤 Public team"
  if pyTruthy (← pyGet project_info "has_partnerships" (.bool false)) then do
    addScore 1
    addStrength "🤝 Partnerships announced"
  let ut ← pyGet project_info "utility" (.str "")
  if !(pyEq ut (.str "") || pyEq ut (.str "none") || pyEq ut (.str "planned")) then do
    addScore 0.5
    addStrength "🔧 Has real utility"
  if !(pyTruthy (← pyGet project_info "website_quality" .none)) then do
    addScore (-0.25)
    addFlag "no_website"
  if !(pyTruthy (← pyGet project_info "documentation_quality" .none)) then do
    addScore (-0.25)
    addFlag "no_docs"
  if !(pyTruthy (← pyGet project_info "roadmap_quality" .none)) then do
    addScore (-0.25)
    addFlag "no_roadmap"

/-- Method _score_technical_foundation (Technical and timing category, 15 point
budget).  The except handler of this category appends
timing_analysis_error, as in the source. -/
def score_technical_foundation (tc : TimeCtx) (token_data : PyVal) :
    ℚ × List String × List String :=
  runCat (technicalFoundationBody tc token_data) "timing_analysis_error"

/-- Body of _score_timing_factors (market momentum from the optional
market context, trading-hour and weekday windows, launch competition,
trending cycle). -/
def timingFactorsBody (tc : TimeCtx) (token_data : PyVal)
    (market_context : Option PyVal) : PyM Unit := do
  match market_context with
  | Option.some mc =>
    if pyTruthy mc then do
      let solana_performance ← pyGet mc "solana_24h_change" (.num 0)
      if (← pyGt solana_performance (.num 5)) then do
        addScore 2
        addStrength "🚀 Solana pumping - Meme coin favorable environment"
      else if (← pyGt solana_performance (.num 0)) then do
        addScore 1
        addStrength "📈 Positive Solana momentum"
      else if (← pyLt solana_performance (.num (-10))) then
        addFlag "solana_dumping"
      let meme_sector_momentum ← pyGet mc "meme_sector_24h" (.num 0)
      if (← pyGt meme_sector_momentum (.num 20)) then do
        addScore 2
        addStrength "💥 MEME SECTOR EXPLOSION - Perfect timing"
      else if (← pyGt meme_sector_momentum (.num 0)) then do
        addScore 1
        addStrength "🎭 Meme coins trending"
      let market_greed ← pyGet mc "fear_greed_index" (.num 50)
      if (← pyGt market_greed (.num 70)) then do
        addScore 1
        addStrength "🤑 Market greed high - Meme pump season"
    else pure ()
  | Option.none => pure ()
  if 12 ≤ tc.hour_utc ∧ tc.hour_utc ≤ 20 then do
    addScore 1
    addStrength "⏰ Peak trading hours - Maximum attention"
  else if (8 ≤ tc.hour_utc ∧ tc.hour_utc ≤ 12) ∨ (20 ≤ tc.hour_utc ∧ tc.hour_utc ≤ 24) then do
    addScore 0.5
    addStrength "🕐 Good trading hours"
  if 5 ≤ tc.weekday then do
    addScore 1
    addStrength "🎉 Weekend pump potential - Lower volume, higher volatility"
  let recent_major_launches ← pyGet token_data "recent_major_launches_24h" (.num 0)
  if pyEq recent_major_launches (.num 0) then do
    addScore 2
    addStrength "🎯 Clear market - No major launches competing for attention"
  else if (← pyGt recent_major_launches (.num 3)) then
    addFlag "crowded_launch_day"
  let trending_peak ← pyGet token_data "trending_momentum" (.str "none")
  if pyEq trending_peak (.str "building") then do
    addScore 1
    addStrength "📊 Trending momentum building"
  else if pyEq trending_peak (.str "peak") then do
    addScore 0.5
    addStrength "🔥 At trending peak"
  else if pyEq trending_peak (.str "fading") then
    addFlag "momentum_fading"

/-- Method _score_timing_factors (Market-context timing category, 10 point
budget). -/
def score_timing_factors (tc : TimeCtx) (token_data : PyVal)
    (market_context : Option PyVal) : ℚ × List String × List String :=
  runCat (timingFactorsBody tc token_data market_context) "timing_analysis_error"

/-- Body of _score_risk_factors: the score accumulator holds the
deduction total; no strengths are produced. -/
def riskFactorsBody (token_data : PyVal) (existing_flags : List String) : PyM Unit := do
  if existing_flags.contains "weak_social_presence" ∨ existing_flags.contains "small_community" then do
    addScore 3
    addFlag "minimal_social_presence"
  let marketing_claims ← pyGet token_data "marketing_analysis" (.dict [])
  if pyTruthy (← pyGet marketing_claims "excessive_claims" (.bool false)) then do
    addScore 2
    addFlag "excessive_marketing"
  if pyTruthy (← pyGet token_data "is_copycat" (.bool false)) then do
    addScore 2
    addFlag "copycat_project"
  let whale_activity ← pyGet token_data "whale_activity" (.dict [])
  if pyTruthy (← pyGet whale_activity "suspicious_movements" (.bool false)) then do
    addScore 2
    addFlag "suspicious_whale_activity"
  let engagement_score ← pyGet token_data "engagement_score" (.num 50)
  if (← pyLt engagement_score (.num 20)) then do
    addScore 1
    addFlag "poor_engagement"

/-- Method _score_risk_factors: deduction value plus additional risk flags,
computed from the flags the five category scorers raised. -/
def score_risk_factors (token_data : PyVal) (existing_flags : List String) :
    ℚ × List String :=
  let r := runCat (riskFactorsBody token_data existing_flags) "risk_assessment_error"
  (r.1, r.2.1)

/-- Generic first-match association-list lookup. -/
def alookup {α : Type} (l : List (String × α)) (k : String) : Option α :=
  match l with
  | [] => Option.none
  | (k1, v) :: t => if k1 = k then Option.some v else alookup t k

/-- The critical red flags that auto-disqualify a token
(ComprehensiveTokenScorer.CRITICAL_RED_FLAGS). -/
def CRITICAL_RED_FLAGS : List String :=
  ["CRITICAL_HONEYPOT", "extreme_sell_tax", "insufficient_liquidity",
   "whale_dumping", "sentiment_crash", "safety_analysis_error"]

/-- Weight multipliers for market conditions
(ComprehensiveTokenScorer.MARKET_CONDITION_WEIGHTS), in dict insertion
order. -/
def MARKET_CONDITION_WEIGHTS : List (String × List (String × ℚ)) :=
  [("bull_market", [("community", 1.2), ("timing", 1.3), ("technical", 0.9)]),
   ("bear_market", [("security", 1.3), ("technical", 1.2), ("timing", 0.8)]),
   ("sideways", [("security", 1.1), ("community", 1.1), ("market", 1.0)])]

/-- Tier thresholds held by the scorer (self.TIER_THRESHOLDS). -/
structure TierThresholds where
  A : ℚ
  B : ℚ
  C : ℚ
  D : ℚ
deriving DecidableEq, Repr

/-- Signal-generation criteria held by the scorer (self.SIGNAL_CRITERIA). -/
structure SignalCriteria where
  tier_a_always : Bool
  tier_b_min_score : ℚ
  tier_c_min_score : ℚ
  tier_d_never : Bool
deriving DecidableEq, Repr

/-- The configurable environment values read by
ComprehensiveTokenScorer.__init__ from src/config.py. -/
structure EnvConfig where
  TIER_A_THRESHOLD : ℚ
  TIER_B_THRESHOLD : ℚ
  TIER_C_THRESHOLD : ℚ
  TIER_A_ALWAYS_SIGNAL : Bool
  TIER_B_MIN_SCORE : ℚ
  TIER_C_MIN_SCORE : ℚ
  TIER_D_NEVER_SIGNAL : Bool
deriving DecidableEq, Repr

/-- The defaults of src/config.py: A=40, B=25, C=15, tier A always
signals, B needs 30, C needs 18, tier D never signals. -/
def defaultEnvConfig : EnvConfig := ⟨40, 25, 15, true, 30, 18, true⟩

/-- Configurable state of a constructed ComprehensiveTokenScorer.  The
critical-flag list and market-condition weight table are constants of
__init__ and are kept as the top-level definitions above. -/
structure ScorerSelf where
  TIER_THRESHOLDS : TierThresholds
  SIGNAL_CRITERIA : SignalCriteria
deriving DecidableEq, Repr

/-- ComprehensiveTokenScorer.__init__: stores the configured thresholds
and signal criteria (tier D threshold fixed at 0).  The source performs
no validation of any kind on these values. -/
def scorerInit (cfg : EnvConfig) : ScorerSelf :=
  { TIER_THRESHOLDS :=
      { A := cfg.TIER_A_THRESHOLD, B := cfg.TIER_B_THRESHOLD,
        C := cfg.TIER_C_THRESHOLD, D := 0 }
    SIGNAL_CRITERIA :=
      { tier_a_always := cfg.TIER_A_ALWAYS_SIGNAL,
        tier_b_min_score := cfg.TIER_B_MIN_SCORE,
        tier_c_min_score := cfg.TIER_C_MIN_SCORE,
        tier_d_never := cfg.TIER_D_NEVER_SIGNAL } }

/-- The scores dictionary of comprehensive_score, with its six keys in
insertion order. -/
structure CatScores where
  on_chain_health : ℚ
  market_dynamics : ℚ
  community_signals : ℚ
  technical_foundation : ℚ
  timing_factors : ℚ
  risk_deductions : ℚ
deriving DecidableEq, Repr

/-- The scores dict as the association list Python iterates over
(insertion order of the keys). -/
def scoresToList (s : CatScores) : List (String × ℚ) :=
  [("on_chain_health", s.on_chain_health),
   ("market_dynamics", s.market_dynamics),
   ("community_signals", s.community_signals),
   ("technical_foundation", s.technical_foundation),
   ("timing_factors", s.timing_factors),
   ("risk_deductions", s.risk_deductions)]

/-- ScoringResult dataclass. -/
structure ScoringResult where
  total_score : ℚ
  tier : String
  category_scores : CatScores
  red_flags : List String
  strengths : List String
  recommendation : String
  risk_level : String
deriving DecidableEq, Repr

/-- Method _apply_market_adjustments: for each category that the weight table of
the active condition and the category-results mapping share, add
categoryScore times multiplier minus categoryScore, then clamp to
[0,100].  A context on which the dictionary operations raise (non-dict
context, unhashable condition key) is caught by the except handler of the
source, which returns the unadjusted base score. -/
def apply_market_adjustments (base_score : ℚ) (category_scores : List (String × ℚ))
    (market_context : PyVal) : ℚ :=
  match market_context with
  | .dict l =>
    let condition := (plookup l "condition").getD (.str "sideways")
    match condition with
    | .str c =>
      let weights := (alookup MARKET_CONDITION_WEIGHTS c).getD []
      let adjusted_score := weights.foldl
        (fun acc p =>
          match alookup category_scores p.1 with
          | Option.some v => acc + (v * p.2 - v)
          | Option.none => acc)
        base_score
      min 100 (max 0 adjusted_score)
    | .dict _ => base_score
    | _ => min 100 (max 0 base_score)
  | _ => base_score

/-- Method _determine_tier: ordered threshold ladder A, B, C, else D. -/
def determine_tier (self : ScorerSelf) (score : ℚ) : String :=
  if self.TIER_THRESHOLDS.A ≤ score then "A"
  else if self.TIER_THRESHOLDS.B ≤ score then "B"
  else if self.TIER_THRESHOLDS.C ≤ score then "C"
  else "D"

/-- Method _generate_recommendation: only the tier selects the text; the
interpolated score is elided from the literal. -/
def generate_recommendation (tier : String) : String :=
  if tier = "A" then "🚀 MEME PUMP ALERT - Strong signals detected - Act fast!"
  else if tier = "B" then "📈 STRONG BUY - Good momentum building - Enter with caution."
  else if tier = "C" then "👀 WATCH CLOSELY - Early signals present - Small position only."
  else "❌ AVOID - Too many risks or no momentum detected."

/-- Method _assess_risk_level. -/
def assess_risk_level (score : ℚ) (red_flags : List String) : String :=
  let critical_count := (red_flags.filter (fun f => CRITICAL_RED_FLAGS.contains f)).length
  if 0 < critical_count then "CRITICAL"
  else if score < 30 ∨ 5 < red_flags.length then "HIGH"
  else if score < 60 ∨ 2 < red_flags.length then "MEDIUM"
  else "LOW"

/-- comprehensive_score: runs the five category scorers, the risk
deduction scorer, the critical-flag override, the total computation with
clamping, the optional market-condition adjustment, and the tier /
recommendation / risk-level derivation.  The try/except wrapper of the
source method is omitted because every translated operation inside it is
total (each category catches its own faults), so the handler is
unreachable.  Note that sum(scores.values()) already contains the
risk_deductions entry, which the source then subtracts once. -/
def comprehensive_score (self : ScorerSelf) (tc : TimeCtx) (token_data : PyVal)
    (market_context : Option PyVal) : ScoringResult :=
  let r1 := score_onchain_health token_data
  let r2 := score_market_dynamics token_data
  let r3 := score_community_signals token_data
  let r4 := score_technical_foundation tc token_data
  let r5 := score_timing_factors tc token_data market_context
  let flags5 := r1.2.1 ++ r2.2.1 ++ r3.2.1 ++ r4.2.1 ++ r5.2.1
  let r6 := score_risk_factors token_data flags5
  let red_flags := flags5 ++ r6.2
  let strengths := r1.2.2 ++ r2.2.2 ++ r3.2.2 ++ r4.2.2 ++ r5.2.2
  let scores : CatScores := ⟨r1.1, r2.1, r3.1, r4.1, r5.1, r6.1⟩
  let critical_flags := red_flags.filter (fun f => CRITICAL_RED_FLAGS.contains f)
  if critical_flags ≠ [] then
    { total_score := 0, tier := "D", category_scores := scores,
      red_flags := red_flags, strengths := strengths,
      recommendation := "AVOID - Critical red flags detected",
      risk_level := "CRITICAL" }
  else
    let total_score0 :=
      (scores.on_chain_health + scores.market_dynamics + scores.community_signals +
        scores.technical_foundation + scores.timing_factors + scores.risk_deductions)
      - scores.risk_deductions
    let total_score1 := max 0 (min 100 total_score0)
    let total_score2 :=
      match market_context with
      | Option.some mc =>
        if pyTruthy mc then
          apply_market_adjustments total_score1 (scoresToList scores) mc
        else total_score1
      | Option.none => total_score1
    let tier := determine_tier self total_score2
    { total_score := total_score2, tier := tier, category_scores := scores,
      red_flags := red_flags, strengths := strengths,
      recommendation := generate_recommendation tier,
      risk_level := assess_risk_level total_score2 red_flags }

/-- is_speculative_candidate on a ScoringResult: the attribute path of
the source (the dict path reads the same fields under their report
names); a constructed ScoringResult always has a tier, so the
missing-tier early exit of the source cannot trigger here. -/
def is_speculative_candidate (result : ScoringResult) : Bool :=
  let market := result.category_scores.market_dynamics
  let social := result.category_scores.community_signals
  if result.tier = "A" ∨ result.tier = "B" then false
  else if result.risk_level = "CRITICAL" then false
  else if (12 ≤ market ∨ 12 ≤ social) ∧ 18 ≤ result.total_score then true
  else false

/-- should_send_signal_comprehensive: the tiered signal-policy ladder.
None (a falsy result) yields no signal. -/
def should_send_signal_comprehensive (self : ScorerSelf)
    (comprehensive_result : Option ScoringResult) (speculative_mode : Bool) : Bool :=
  match comprehensive_result with
  | Option.none => false
  | Option.some r =>
    if r.tier = "A" ∧ self.SIGNAL_CRITERIA.tier_a_always then true
    else if r.tier = "B" ∧ self.SIGNAL_CRITERIA.tier_b_min_score ≤ r.total_score then true
    else if r.tier = "C" ∧ self.SIGNAL_CRITERIA.tier_c_min_score ≤ r.total_score then true
    else if speculative_mode ∧ is_speculative_candidate r then true
    else if r.tier = "D" ∧ ¬self.SIGNAL_CRITERIA.tier_d_never then
      decide (40 ≤ r.total_score)
    else false

/-- One row of the paper_trades table (src/src/storage/database.py,
init_database DDL).  Fields not touched by the open path (last_checked,
last_price_usd, profit_loss_usd, performance_note) are omitted. -/
structure PaperTrade where
  id : Nat
  token_address : String
  token_symbol : String
  buy_price_usd : ℚ
  amount_usd : ℚ
  tokens_bought : ℚ
  buy_timestamp : String
  status : String
deriving DecidableEq, Repr

/-- The paper_trades table: an auto-increment counter and the rows in
insertion order. -/
structure PaperTradesDb where
  next_id : Nat
  rows : List PaperTrade
deriving DecidableEq, Repr

def emptyPaperTradesDb : PaperTradesDb := ⟨1, []⟩

/-- TokenDatabase.get_paper_trade_by_address: SELECT the first row with
this address and status OPEN. -/
def get_paper_trade_by_address (db : PaperTradesDb) (token_address : String) :
    Option PaperTrade :=
  db.rows.find? (fun r => r.token_address == token_address && r.status == "OPEN")

/-- TokenDatabase.store_paper_trade: INSERT a new OPEN row.  The UNIQUE
KEY unique_token_address declared by init_database makes the insert fail
(the method returns False) when any row with this address already
exists. -/
def store_paper_trade (db : PaperTradesDb) (token_address token_symbol : String)
    (buy_price_usd amount_usd tokens_bought : ℚ) (timestamp : String) :
    PaperTradesDb × Bool :=
  if db.rows.any (fun r => r.token_address == token_address) then (db, false)
  else
    ({ next_id := db.next_id + 1,
       rows := db.rows ++
         [⟨db.next_id, token_address, token_symbol, buy_price_usd, amount_usd,
           tokens_bought, timestamp, "OPEN"⟩] }, true)

/-- Outcome of one pass of the paper-trading block for one token. -/
inductive OpenOutcome where
  | skipped_existing
  | bought
  | insufficient_balance
  | no_price
deriving DecidableEq, Repr

/-- The paper-trading block of MemeBot.scan_and_analyze (src/src/main.py,
lines 180 to 245) for one signalled token, entered with the buy price the
upstream pair-selection and float() parsing produced (None when no usable
price): check for an existing OPEN trade, else verify balance and a
positive price, compute the token quantity and store the trade. -/
def openPaperTrade (db : PaperTradesDb) (paper_usd_balance : ℚ)
    (token_address token_symbol : String) (buy_price_usd : Option ℚ)
    (trade_amount_usd : ℚ) (timestamp : String) : PaperTradesDb × OpenOutcome :=
  match get_paper_trade_by_address db token_address with
  | Option.some _ => (db, .skipped_existing)
  | Option.none =>
    match buy_price_usd with
    | Option.some p =>
      if trade_amount_usd ≤ paper_usd_balance ∧ p ≠ 0 ∧ 0 < p then
        let tokens_to_buy := trade_amount_usd / p
        ((store_paper_trade db token_address token_symbol p trade_amount_usd
            tokens_to_buy timestamp).1, .bought)
      else if paper_usd_balance < trade_amount_usd then (db, .insufficient_balance)
      else (db, .no_price)
    | Option.none =>
      if paper_usd_balance < trade_amount_usd then (db, .insufficient_balance)
      else (db, .no_price)

/-- One price_history row as read by the timing-pattern query
(src/src/analytics/price_tracker.py). -/
structure PriceSample where
  minutes_since_entry : ℤ
  performance_pct : ℚ
deriving DecidableEq, Repr

/-- The CASE expression of analyze_timing_patterns assigning a sample to
its time band. -/
def time_interval (m : ℤ) : String :=
  if m ≤ 15 then "0-15 min"
  else if m ≤ 30 then "15-30 min"
  else if m ≤ 60 then "30-60 min"
  else if m ≤ 120 then "1-2 hours"
  else if m ≤ 360 then "2-6 hours"
  else if m ≤ 1440 then "6-24 hours"
  else "24+ hours"

/-- The ORDER BY of analyze_timing_patterns: band labels in their fixed
display order. -/
def interval_order : List String :=
  ["0-15 min", "15-30 min", "30-60 min", "1-2 hours", "2-6 hours",
   "6-24 hours", "24+ hours"]

/-- SQL MAX over a group (groups are non-empty; the empty case is
unreachable). -/
def qListMax (l : List ℚ) : ℚ :=
  match l with
  | [] => 0
  | h :: t => t.foldl max h

/-- SQL MIN over a group. -/
def qListMin (l : List ℚ) : ℚ :=
  match l with
  | [] => 0
  | h :: t => t.foldl min h

/-- One output row of the timing-pattern query. -/
structure BucketStat where
  time_interval : String
  snapshots : Nat
  avg_performance : ℚ
  max_performance : ℚ
  min_performance : ℚ
  pumps_10pct : Nat
  pumps_50pct : Nat
  moons_100pct : Nat
deriving DecidableEq, Repr

/-- The output row of the timing-pattern query for one band label: none
when the group for that label is empty (GROUP BY emits only populated
groups), else the row count, AVG / MAX / MIN of performance_pct and the
counts above the 10, 50 and 100 percent thresholds. -/
def bucket_row (samples : List PriceSample) (lbl : String) : Option BucketStat :=
  let group := samples.filter (fun s => time_interval s.minutes_since_entry == lbl)
  if group.isEmpty then Option.none
  else
    let perfs := group.map (fun s => s.performance_pct)
    Option.some
      { time_interval := lbl
        snapshots := group.length
        avg_performance := perfs.sum / (group.length : ℚ)
        max_performance := qListMax perfs
        min_performance := qListMin perfs
        pumps_10pct := (group.filter (fun s => decide (10 < s.performance_pct))).length
        pumps_50pct := (group.filter (fun s => decide (50 < s.performance_pct))).length
        moons_100pct := (group.filter (fun s => decide (100 < s.performance_pct))).length }

/-- analyze_timing_patterns: GROUP BY the CASE band label with ORDER BY
the fixed label order. -/
def analyze_timing_patterns (samples : List PriceSample) : List BucketStat :=
  interval_order.filterMap (bucket_row samples)
lemma comp_cases (self : ScorerSelf) (tc : TimeCtx) (td : PyVal) (mc : Option PyVal) :
    ((comprehensive_score self tc td mc).total_score = 0 ∧
     (comprehensive_score self tc td mc).tier = "D" ∧
     (comprehensive_score self tc td mc).risk_level = "CRITICAL")
    ∨ (∀ f ∈ (comprehensive_score self tc td mc).red_flags, f ∉ CRITICAL_RED_FLAGS) := by
  unfold comprehensive_score
  dsimp only
  split
  · exact Or.inl ⟨rfl, rfl, rfl⟩
  · right
    rename_i hc
    simp only [ne_eq, not_not, List.filter_eq_nil_iff] at hc
    intro f hf hcrit
    exact hc f hf (by simpa using hcrit)

lemma critical_core (self : ScorerSelf) (tc : TimeCtx) (td : PyVal) (mc : Option PyVal)
    (h : ∃ f ∈ (comprehensive_score self tc td mc).red_flags, f ∈ CRITICAL_RED_FLAGS) :
    (comprehensive_score self tc td mc).total_score = 0 ∧
    (comprehensive_score self tc td mc).tier = "D" ∧
    (comprehensive_score self tc td mc).risk_level = "CRITICAL" := by
  rcases comp_cases self tc td mc with hres | hnone
  · exact hres
  · obtain ⟨f, hf, hcrit⟩ := h
    exact absurd hcrit (hnone f hf)

lemma is_spec_false_of_critical (r : ScoringResult) (hC : r.risk_level = "CRITICAL") :
    is_speculative_candidate r = false := by
  unfold is_speculative_candidate
  dsimp only
  split_ifs <;> rfl

lemma signal_false_of_zero_D_critical (self : ScorerSelf) (r : ScoringResult) (spec : Bool)
    (h0 : r.total_score = 0) (hD : r.tier = "D") (hC : r.risk_level = "CRITICAL") :
    should_send_signal_comprehensive self (Option.some r) spec = false := by
  unfold should_send_signal_comprehensive
  dsimp only
  rw [is_spec_false_of_critical r hC, hD, h0]
  split_ifs <;> first
    | rfl
    | (exfalso; simp_all)

/-- A honeypot snapshot: not transferable, flagged as honeypot. -/
def tdHoneypot : PyVal := .dict [("honeypot_check",
  .dict [("is_honeypot", .bool true), ("can_sell", .bool false)])]

/-- A fixed wall clock for concrete evaluations: 03:00 UTC on a
Wednesday. -/
def tcFixed : TimeCtx := ⟨3, 2, 1000000⟩

/-- Claim C1: for every evaluation of comprehensive_score, if any raised
flag belongs to the critical-flag set, the returned result has total
score 0, tier D and risk level CRITICAL, regardless of the individual
category sums. -/
theorem C1_critical_flags_override (self : ScorerSelf) (tc : TimeCtx) (td : PyVal)
    (mc : Option PyVal)
    (h : ∃ f ∈ (comprehensive_score self tc td mc).red_flags, f ∈ CRITICAL_RED_FLAGS) :
    (comprehensive_score self tc td mc).total_score = 0 ∧
    (comprehensive_score self tc td mc).tier = "D" ∧
    (comprehensive_score self tc td mc).risk_level = "CRITICAL" :=
  critical_core self tc td mc h

/-- Witness for C1 at a concrete honeypot snapshot. -/
theorem C1_critical_flags_override_witness :
    (∃ f ∈ (comprehensive_score (scorerInit defaultEnvConfig) tcFixed tdHoneypot
        Option.none).red_flags, f ∈ CRITICAL_RED_FLAGS) ∧
    ((comprehensive_score (scorerInit defaultEnvConfig) tcFixed tdHoneypot
        Option.none).total_score = 0 ∧
     (comprehensive_score (scorerInit defaultEnvConfig) tcFixed tdHoneypot
        Option.none).tier = "D" ∧
     (comprehensive_score (scorerInit defaultEnvConfig) tcFixed tdHoneypot
        Option.none).risk_level = "CRITICAL") :=
  ⟨by with_unfolding_all decide,
   C1_critical_flags_override (scorerInit defaultEnvConfig) tcFixed tdHoneypot
     Option.none (by with_unfolding_all decide)⟩

/-- Claim C10: a result whose red flags include a critical flag never
produces a signal, under every policy configuration and both values of
the speculative-mode flag. -/
theorem C10_critical_never_signals (self policySelf : ScorerSelf) (tc : TimeCtx)
    (td : PyVal) (mc : Option PyVal) (speculative_mode : Bool)
    (h : ∃ f ∈ (comprehensive_score self tc td mc).red_flags, f ∈ CRITICAL_RED_FLAGS) :
    should_send_signal_comprehensive policySelf
      (Option.some (comprehensive_score self tc td mc)) speculative_mode = false := by
  obtain ⟨h0, hD, hC⟩ := critical_core self tc td mc h
  exact signal_false_of_zero_D_critical policySelf _ speculative_mode h0 hD hC

/-- Witness for C10 at the concrete honeypot snapshot, with tier D
signalling enabled in the policy. -/
theorem C10_critical_never_signals_witness :
    (∃ f ∈ (comprehensive_score (scorerInit defaultEnvConfig) tcFixed tdHoneypot
        Option.none).red_flags, f ∈ CRITICAL_RED_FLAGS) ∧
    should_send_signal_comprehensive (scorerInit { defaultEnvConfig with
        TIER_D_NEVER_SIGNAL := false })
      (Option.some (comprehensive_score (scorerInit defaultEnvConfig) tcFixed tdHoneypot
        Option.none)) true = false :=
  ⟨by with_unfolding_all decide,
   C10_critical_never_signals (scorerInit defaultEnvConfig)
     (scorerInit { defaultEnvConfig with TIER_D_NEVER_SIGNAL := false }) tcFixed
     tdHoneypot Option.none true (by with_unfolding_all decide)⟩

/-- Claim C2: the honeypot calibration of the Safety scorer.  For a
snapshot whose honeypot_check carries booleans is_honeypot = h and
can_sell = c: transferable and not flagged awards +8 and evaluation
continues with the remaining sub-checks; transferable but flagged awards
+5 and continues; not transferable returns (0, CRITICAL_HONEYPOT, no
strengths) immediately, the remaining sub-checks contributing nothing. -/
theorem C2_honeypot_calibration (rest : List (String × PyVal)) (h c : Bool) :
    (c = false →
      score_onchain_health (.dict (("honeypot_check",
        .dict [("is_honeypot", .bool h), ("can_sell", .bool c)]) :: rest)) =
        (0, ["CRITICAL_HONEYPOT"], [])) ∧
    (h = false → c = true →
      onchainBody (.dict (("honeypot_check",
        .dict [("is_honeypot", .bool h), ("can_sell", .bool c)]) :: rest)) ScSt.init =
      onchainRest (.dict (("honeypot_check",
        .dict [("is_honeypot", .bool h), ("can_sell", .bool c)]) :: rest))
        ⟨8, [], ["✅ SAFE TO TRADE - Not a honeypot"]⟩) ∧
    (h = true → c = true →
      onchainBody (.dict (("honeypot_check",
        .dict [("is_honeypot", .bool h), ("can_sell", .bool c)]) :: rest)) ScSt.init =
      onchainRest (.dict (("honeypot_check",
        .dict [("is_honeypot", .bool h), ("can_sell", .bool c)]) :: rest))
        ⟨5, [], ["⚠️ Can sell but check carefully"]⟩) := by
  refine ⟨?_, ?_, ?_⟩ <;> rintro rfl <;> try rintro rfl
  · cases h <;> with_unfolding_all rfl
  · with_unfolding_all rfl
  · with_unfolding_all rfl

/-- Witness for C2: all three calibration branches at concrete
snapshots. -/
theorem C2_honeypot_calibration_witness :
    score_onchain_health (.dict [("honeypot_check",
      .dict [("is_honeypot", .bool true), ("can_sell", .bool false)])]) =
      (0, ["CRITICAL_HONEYPOT"], []) ∧
    onchainBody (.dict [("honeypot_check",
      .dict [("is_honeypot", .bool false), ("can_sell", .bool true)])]) ScSt.init =
      onchainRest (.dict [("honeypot_check",
        .dict [("is_honeypot", .bool false), ("can_sell", .bool true)])])
        ⟨8, [], ["✅ SAFE TO TRADE - Not a honeypot"]⟩ ∧
    onchainBody (.dict [("honeypot_check",
      .dict [("is_honeypot", .bool true), ("can_sell", .bool true)])]) ScSt.init =
      onchainRest (.dict [("honeypot_check",
        .dict [("is_honeypot", .bool true), ("can_sell", .bool true)])])
        ⟨5, [], ["⚠️ Can sell but check carefully"]⟩ :=
  ⟨(C2_honeypot_calibration [] true false).1 rfl,
   (C2_honeypot_calibration [] false true).2.1 rfl rfl,
   (C2_honeypot_calibration [] true true).2.2 rfl rfl⟩

/-- A clean tradable snapshot that triggers a positive risk deduction
(copycat project) and no critical flag. -/
def tdCopycat : PyVal := .dict [
  ("honeypot_check", .dict [("is_honeypot", .bool false), ("can_sell", .bool true)]),
  ("liquidity", .dict [("usd", .num 1000), ("locked", .bool true)]),
  ("contract", .dict [("ownership", .str "renounced"), ("can_mint", .bool false)]),
  ("is_copycat", .bool true)]

/-- Claim C3 is false on the code: sum(scores.values()) already contains
the risk_deductions entry, so subtracting it once yields the plain sum of
the five category contributions and a positive deduction never lowers the
total.  At tdCopycat the deduction is 2 yet the total equals the category
sum 28.25, not 26.25. -/
theorem C3_risk_deduction_cancels :
    (comprehensive_score (scorerInit defaultEnvConfig) tcFixed tdCopycat
        Option.none).category_scores.risk_deductions = 2 ∧
    (comprehensive_score (scorerInit defaultEnvConfig) tcFixed tdCopycat
        Option.none).total_score =
      (comprehensive_score (scorerInit defaultEnvConfig) tcFixed tdCopycat
          Option.none).category_scores.on_chain_health +
      (comprehensive_score (scorerInit defaultEnvConfig) tcFixed tdCopycat
          Option.none).category_scores.market_dynamics +
      (comprehensive_score (scorerInit defaultEnvConfig) tcFixed tdCopycat
          Option.none).category_scores.community_signals +
      (comprehensive_score (scorerInit defaultEnvConfig) tcFixed tdCopycat
          Option.none).category_scores.technical_foundation +
      (comprehensive_score (scorerInit defaultEnvConfig) tcFixed tdCopycat
          Option.none).category_scores.timing_factors ∧
    (comprehensive_score (scorerInit defaultEnvConfig) tcFixed tdCopycat
        Option.none).total_score = 28.25 ∧
    ¬ (comprehensive_score (scorerInit defaultEnvConfig) tcFixed tdCopycat
        Option.none).total_score =
      ((comprehensive_score (scorerInit defaultEnvConfig) tcFixed tdCopycat
          Option.none).category_scores.on_chain_health +
       (comprehensive_score (scorerInit defaultEnvConfig) tcFixed tdCopycat
          Option.none).category_scores.market_dynamics +
       (comprehensive_score (scorerInit defaultEnvConfig) tcFixed tdCopycat
          Option.none).category_scores.community_signals +
       (comprehensive_score (scorerInit defaultEnvConfig) tcFixed tdCopycat
          Option.none).category_scores.technical_foundation +
       (comprehensive_score (scorerInit defaultEnvConfig) tcFixed tdCopycat
          Option.none).category_scores.timing_factors) -
      (comprehensive_score (scorerInit defaultEnvConfig) tcFixed tdCopycat
          Option.none).category_scores.risk_deductions := by
  with_unfolding_all decide

/-- The spec formulation of the market-condition adjustment: the sum,
over the weight-table entries whose category also appears in the category
results, of categoryScore times multiplier minus categoryScore. -/
def weighted_adjust_sum (category_scores weights : List (String × ℚ)) : ℚ :=
  (weights.filterMap (fun p =>
    match alookup category_scores p.1 with
    | Option.some v => Option.some (v * p.2 - v)
    | Option.none => Option.none)).sum

lemma foldl_adjust_eq (cs : List (String × ℚ)) (ws : List (String × ℚ)) (base : ℚ) :
    ws.foldl (fun acc p =>
      match alookup cs p.1 with
      | Option.some v => acc + (v * p.2 - v)
      | Option.none => acc) base = base + weighted_adjust_sum cs ws := by
  induction ws generalizing base with
  | nil => simp [weighted_adjust_sum]
  | cons p t ih =>
    simp only [List.foldl_cons, weighted_adjust_sum, List.filterMap_cons]
    cases halo : alookup cs p.1 with
    | none => simpa [weighted_adjust_sum] using ih base
    | some v =>
      simp only [weighted_adjust_sum, List.sum_cons] at ih ⊢
      rw [ih]
      ring

/-- Claim C4: with a market context, the aggregator adds, for each
category present in both the active condition weight table and the
category results, categoryScore times multiplier minus categoryScore,
then re-clamps to [0,100]; in particular a timing category contributing
10 under the bull-market weight 1.3 on timing raises the total by exactly
3 before re-clamping, all else equal. -/
theorem C4_market_condition_weighting :
    (∀ (base : ℚ) (cs : List (String × ℚ)) (cond : String),
      apply_market_adjustments base cs (.dict [("condition", .str cond)]) =
        min 100 (max 0 (base + weighted_adjust_sum cs
          ((alookup MARKET_CONDITION_WEIGHTS cond).getD [])))) ∧
    (∀ (base : ℚ) (cs : List (String × ℚ)),
      alookup cs "timing" = Option.some 10 →
      alookup cs "community" = Option.none →
      alookup cs "technical" = Option.none →
      apply_market_adjustments base cs (.dict [("condition", .str "bull_market")]) =
        min 100 (max 0 (base + 3))) := by
  have key : ∀ (base : ℚ) (cs : List (String × ℚ)) (cond : String),
      apply_market_adjustments base cs (.dict [("condition", .str cond)]) =
        min 100 (max 0 (base + weighted_adjust_sum cs
          ((alookup MARKET_CONDITION_WEIGHTS cond).getD []))) := by
    intro base cs cond
    unfold apply_market_adjustments
    simp only [plookup, reduceIte, Option.getD_some]
    rw [foldl_adjust_eq]
  refine ⟨key, fun base cs h1 h2 h3 => ?_⟩
  rw [key]
  have : weighted_adjust_sum cs
      ((alookup MARKET_CONDITION_WEIGHTS "bull_market").getD []) = 3 := by
    have hw : (alookup MARKET_CONDITION_WEIGHTS "bull_market").getD [] =
        [("community", 1.2), ("timing", 1.3), ("technical", 0.9)] := by rfl
    rw [hw]
    simp only [weighted_adjust_sum, List.filterMap_cons, h1, h2, h3]
    norm_num
  rw [this]

/-- Witness for C4: base 50 with the single category timing at 10 under
the bull-market condition. -/
theorem C4_market_condition_weighting_witness :
    apply_market_adjustments 50 [("timing", 10)]
      (.dict [("condition", .str "bull_market")]) = min 100 (max 0 (50 + 3)) :=
  C4_market_condition_weighting.2 50 [("timing", 10)] rfl rfl rfl

lemma is_spec_false_of_tier_AB (r : ScoringResult) (h : r.tier = "A" ∨ r.tier = "B") :
    is_speculative_candidate r = false := by
  unfold is_speculative_candidate
  dsimp only
  rw [if_pos h]

lemma signal_ladder (self : ScorerSelf) (r : ScoringResult) (spec : Bool) :
    should_send_signal_comprehensive self (Option.some r) spec = true ↔
      ((r.tier = "A" ∧ self.SIGNAL_CRITERIA.tier_a_always = true) ∨
       (r.tier = "B" ∧ self.SIGNAL_CRITERIA.tier_b_min_score ≤ r.total_score) ∨
       (r.tier = "C" ∧ self.SIGNAL_CRITERIA.tier_c_min_score ≤ r.total_score) ∨
       (spec = true ∧ is_speculative_candidate r = true) ∨
       (r.tier = "D" ∧ self.SIGNAL_CRITERIA.tier_d_never = false ∧
         40 ≤ r.total_score)) := by
  unfold should_send_signal_comprehensive
  dsimp only
  split_ifs with h1 h2 h3 h4 h5 <;>
    simp_all [decide_eq_true_iff, Bool.not_eq_true]

/-- The category-score record with every entry zero. -/
def catScoresZero : CatScores := ⟨0, 0, 0, 0, 0, 0⟩

/-- A tier-B result with total 30. -/
def resultB30 : ScoringResult := ⟨30, "B", catScoresZero, [], [], "", "MEDIUM"⟩

/-- A tier-B result with total 29. -/
def resultB29 : ScoringResult := ⟨29, "B", catScoresZero, [], [], "", "MEDIUM"⟩

/-- Claim C5: the signal decision follows the policy ladder exactly
(tier A with tierAAlways; tier B iff total at least tierBMinScore; tier C
iff total at least tierCMinScore; else a speculative candidate under
speculative mode; a tier D result only when tierDNever is off and the
total reaches the fixed tier-D floor of 40; otherwise no signal).  A
tier-B result signals globally iff its total reaches tierBMinScore, and
with the default tierBMinScore of 30 a tier-B total of 30 signals while
29 does not under either speculative mode. -/
theorem C5_signal_policy_ladder :
    (∀ (self : ScorerSelf) (r : ScoringResult) (spec : Bool),
      should_send_signal_comprehensive self (Option.some r) spec = true ↔
        ((r.tier = "A" ∧ self.SIGNAL_CRITERIA.tier_a_always = true) ∨
         (r.tier = "B" ∧ self.SIGNAL_CRITERIA.tier_b_min_score ≤ r.total_score) ∨
         (r.tier = "C" ∧ self.SIGNAL_CRITERIA.tier_c_min_score ≤ r.total_score) ∨
         (spec = true ∧ is_speculative_candidate r = true) ∨
         (r.tier = "D" ∧ self.SIGNAL_CRITERIA.tier_d_never = false ∧
           40 ≤ r.total_score))) ∧
    (∀ (self : ScorerSelf) (r : ScoringResult) (spec : Bool), r.tier = "B" →
      (should_send_signal_comprehensive self (Option.some r) spec = true ↔
        self.SIGNAL_CRITERIA.tier_b_min_score ≤ r.total_score)) ∧
    should_send_signal_comprehensive (scorerInit defaultEnvConfig)
      (Option.some resultB30) false = true ∧
    (∀ spec : Bool, should_send_signal_comprehensive (scorerInit defaultEnvConfig)
      (Option.some resultB29) spec = false) := by
  refine ⟨signal_ladder, ?_, by with_unfolding_all decide, ?_⟩
  · intro self r spec htier
    rw [signal_ladder]
    rw [is_spec_false_of_tier_AB r (Or.inr htier)]
    simp [htier]
  · intro spec
    cases spec <;> with_unfolding_all decide

/-- Witness for C5: the tier-B biconditional applied at the concrete
tier-B result with total 30 (hypothesis discharged by rfl). -/
theorem C5_signal_policy_ladder_witness :
    should_send_signal_comprehensive (scorerInit defaultEnvConfig)
      (Option.some resultB30) false = true ↔
    (scorerInit defaultEnvConfig).SIGNAL_CRITERIA.tier_b_min_score ≤
      resultB30.total_score :=
  C5_signal_policy_ladder.2.1 (scorerInit defaultEnvConfig) resultB30 false rfl

/-- A non-monotonic threshold configuration: A=10 < B=20 < C=30. -/
def nonMonotonicEnv : EnvConfig := ⟨10, 20, 30, true, 30, 18, true⟩

/-- Claim C6 is false on the code: the constructor performs no threshold
validation, so the non-monotonic configuration A=10, B=20, C=30 is
accepted, stored verbatim and used by the tier classifier at evaluation
time (a total of 24 is classified as tier A because 10 is below it). -/
theorem C6_no_threshold_validation_counterexample :
    scorerInit nonMonotonicEnv =
      ⟨⟨10, 20, 30, 0⟩, ⟨true, 30, 18, true⟩⟩ ∧
    determine_tier (scorerInit nonMonotonicEnv) 24 = "A" := by
  constructor
  · rfl
  · with_unfolding_all decide

/-- Amended C6: the constructor stores whatever tier thresholds the
configuration supplies, with no monotonicity check and no
ConfigurationError path (the defaults A=40 > B=25 > C=15 > 0 do satisfy
A > B > C > 0); the thresholds are consulted only at evaluation time by
the tier classifier. -/
theorem C6_constructor_stores_thresholds_unvalidated :
    (∀ cfg : EnvConfig,
      scorerInit cfg =
        ⟨⟨cfg.TIER_A_THRESHOLD, cfg.TIER_B_THRESHOLD, cfg.TIER_C_THRESHOLD, 0⟩,
         ⟨cfg.TIER_A_ALWAYS_SIGNAL, cfg.TIER_B_MIN_SCORE, cfg.TIER_C_MIN_SCORE,
          cfg.TIER_D_NEVER_SIGNAL⟩⟩) ∧
    (∀ (cfg : EnvConfig) (score : ℚ),
      determine_tier (scorerInit cfg) score =
        if cfg.TIER_A_THRESHOLD ≤ score then "A"
        else if cfg.TIER_B_THRESHOLD ≤ score then "B"
        else if cfg.TIER_C_THRESHOLD ≤ score then "C"
        else "D") ∧
    (defaultEnvConfig.TIER_A_THRESHOLD > defaultEnvConfig.TIER_B_THRESHOLD ∧
     defaultEnvConfig.TIER_B_THRESHOLD > defaultEnvConfig.TIER_C_THRESHOLD ∧
     defaultEnvConfig.TIER_C_THRESHOLD > 0) := by
  refine ⟨fun cfg => rfl, fun cfg score => rfl, ?_⟩
  with_unfolding_all decide

/-- A snapshot whose Safety evaluation faults late: every earlier
sub-check passes (accumulating 20 points) and then the ownership check
raises because the contract field is a string. -/
def tdLateFault : PyVal := .dict [
  ("honeypot_check", .dict [("is_honeypot", .bool false), ("can_sell", .bool true)]),
  ("liquidity", .dict [("usd", .num 20000), ("locked", .bool true)]),
  ("contract", .str "oops")]

/-- Claim C7 is false on the code as far as the contribution is
concerned: a fault inside the Safety scorer is caught and flagged, but
the category keeps the 20 points accumulated before the fault instead of
contributing zero or near zero. -/
theorem C7_fault_keeps_partial_score_counterexample :
    (onchainBody tdLateFault ScSt.init).2.isFault = true ∧
    (score_onchain_health tdLateFault).1 = 20 ∧
    (score_onchain_health tdLateFault).2.1 = ["safety_analysis_error"] ∧
    ¬ (score_onchain_health tdLateFault).1 = 0 := by
  with_unfolding_all decide

lemma runCat_fault (body : PyM Unit) (errFlag : String)
    (h : (body ScSt.init).2.isFault = true) :
    runCat body errFlag =
      ((body ScSt.init).1.score, (body ScSt.init).1.flags ++ [errFlag],
       (body ScSt.init).1.strengths) := by
  unfold runCat
  rcases hb : body ScSt.init with ⟨s, o⟩
  cases o <;> simp_all [POut.isFault]

/-- Amended C7: every category scorer is total; an internal fault is
caught locally and converted into the partial contribution accumulated
before the fault (not necessarily zero or near zero) plus the diagnostic
analysis-error flag of that category, and the final result always carries
every category contribution as its own standalone evaluation, so sibling
categories are evaluated and unaffected. -/
theorem C7_fault_isolation_amended :
    (∀ (self : ScorerSelf) (tc : TimeCtx) (td : PyVal) (mc : Option PyVal),
      (comprehensive_score self tc td mc).category_scores =
        ⟨(score_onchain_health td).1, (score_market_dynamics td).1,
         (score_community_signals td).1, (score_technical_foundation tc td).1,
         (score_timing_factors tc td mc).1,
         (score_risk_factors td
           ((score_onchain_health td).2.1 ++ (score_market_dynamics td).2.1 ++
            (score_community_signals td).2.1 ++ (score_technical_foundation tc td).2.1 ++
            (score_timing_factors tc td mc).2.1)).1⟩) ∧
    (∀ td : PyVal, (onchainBody td ScSt.init).2.isFault = true →
      score_onchain_health td =
        ((onchainBody td ScSt.init).1.score,
         (onchainBody td ScSt.init).1.flags ++ ["safety_analysis_error"],
         (onchainBody td ScSt.init).1.strengths)) ∧
    (∀ td : PyVal, (marketDynamicsBody td ScSt.init).2.isFault = true →
      score_market_dynamics td =
        ((marketDynamicsBody td ScSt.init).1.score,
         (marketDynamicsBody td ScSt.init).1.flags ++ ["market_analysis_error"],
         (marketDynamicsBody td ScSt.init).1.strengths)) ∧
    (∀ td : PyVal, (communitySignalsBody td ScSt.init).2.isFault = true →
      score_community_signals td =
        ((communitySignalsBody td ScSt.init).1.score,
         (communitySignalsBody td ScSt.init).1.flags ++ ["social_analysis_error"],
         (communitySignalsBody td ScSt.init).1.strengths)) ∧
    (∀ (tc : TimeCtx) (td : PyVal),
      (technicalFoundationBody tc td ScSt.init).2.isFault = true →
      score_technical_foundation tc td =
        ((technicalFoundationBody tc td ScSt.init).1.score,
         (technicalFoundationBody tc td ScSt.init).1.flags ++ ["timing_analysis_error"],
         (technicalFoundationBody tc td ScSt.init).1.strengths)) ∧
    (∀ (tc : TimeCtx) (td : PyVal) (mc : Option PyVal),
      (timingFactorsBody tc td mc ScSt.init).2.isFault = true →
      score_timing_factors tc td mc =
        ((timingFactorsBody tc td mc ScSt.init).1.score,
         (timingFactorsBody tc td mc ScSt.init).1.flags ++ ["timing_analysis_error"],
         (timingFactorsBody tc td mc ScSt.init).1.strengths)) := by
  refine ⟨?_, fun td h => runCat_fault _ _ h, fun td h => runCat_fault _ _ h,
    fun td h => runCat_fault _ _ h, fun tc td h => runCat_fault _ _ h,
    fun tc td mc h => runCat_fault _ _ h⟩
  intro self tc td mc
  unfold comprehensive_score
  dsimp only
  split <;> rfl

/-- Witness for C7: the Safety conjunct applied at the late-faulting
snapshot. -/
theorem C7_fault_isolation_amended_witness :
    score_onchain_health tdLateFault =
      ((onchainBody tdLateFault ScSt.init).1.score,
       (onchainBody tdLateFault ScSt.init).1.flags ++ ["safety_analysis_error"],
       (onchainBody tdLateFault ScSt.init).1.strengths) :=
  C7_fault_isolation_amended.2.1 tdLateFault (by with_unfolding_all decide)

/-- Claim C8: opening a paper position is idempotent per address.  On a
table with no row for the address, a first open with sufficient balance
and a positive price inserts exactly one OPEN row; a second open for the
same address (any symbol, balance, price, amount, timestamp) is a benign
no-op that leaves the table unchanged, so exactly one OPEN row for the
address remains and its fields are those of the first call. -/
theorem C8_paper_open_idempotent (db : PaperTradesDb) (bal1 bal2 : ℚ)
    (addr sym1 sym2 : String) (p1 : ℚ) (price2 : Option ℚ) (amt1 amt2 : ℚ)
    (ts1 ts2 : String)
    (hfresh : ∀ r ∈ db.rows, r.token_address ≠ addr)
    (hbal : amt1 ≤ bal1) (hp : 0 < p1) :
    openPaperTrade db bal1 addr sym1 (Option.some p1) amt1 ts1 =
      (⟨db.next_id + 1, db.rows ++
        [⟨db.next_id, addr, sym1, p1, amt1, amt1 / p1, ts1, "OPEN"⟩]⟩,
       OpenOutcome.bought) ∧
    openPaperTrade ⟨db.next_id + 1, db.rows ++
        [⟨db.next_id, addr, sym1, p1, amt1, amt1 / p1, ts1, "OPEN"⟩]⟩ bal2 addr sym2
        price2 amt2 ts2 =
      (⟨db.next_id + 1, db.rows ++
        [⟨db.next_id, addr, sym1, p1, amt1, amt1 / p1, ts1, "OPEN"⟩]⟩,
       OpenOutcome.skipped_existing) ∧
    List.filter (fun r => r.token_address == addr && r.status == "OPEN")
        (db.rows ++ [⟨db.next_id, addr, sym1, p1, amt1, amt1 / p1, ts1, "OPEN"⟩]) =
      [⟨db.next_id, addr, sym1, p1, amt1, amt1 / p1, ts1, "OPEN"⟩] := by
  have hfail : ∀ r ∈ db.rows,
      ¬ (r.token_address == addr && r.status == "OPEN") = true := by
    intro r hr
    simp [hfresh r hr]
  have hnone : db.rows.find?
      (fun r => r.token_address == addr && r.status == "OPEN") = Option.none :=
    List.find?_eq_none.mpr hfail
  have hany : db.rows.any (fun r => r.token_address == addr) = false := by
    simp only [List.any_eq_false]
    intro r hr
    simp [hfresh r hr]
  refine ⟨?_, ?_, ?_⟩
  · unfold openPaperTrade get_paper_trade_by_address
    rw [hnone]
    dsimp only
    rw [if_pos (show amt1 ≤ bal1 ∧ p1 ≠ 0 ∧ 0 < p1 from ⟨hbal, ne_of_gt hp, hp⟩)]
    unfold store_paper_trade
    rw [hany]
    rfl
  · have hfind : List.find? (fun r => r.token_address == addr && r.status == "OPEN")
        (db.rows ++ [⟨db.next_id, addr, sym1, p1, amt1, amt1 / p1, ts1, "OPEN"⟩]) =
        Option.some ⟨db.next_id, addr, sym1, p1, amt1, amt1 / p1, ts1, "OPEN"⟩ := by
      rw [List.find?_append, hnone]
      simp
    unfold openPaperTrade get_paper_trade_by_address
    dsimp only
    rw [hfind]
  · rw [List.filter_append]
    rw [List.filter_eq_nil_iff.mpr hfail]
    simp

lemma le_foldl_max_init (t : List ℚ) : ∀ h : ℚ, h ≤ t.foldl max h := by
  induction t with
  | nil => intro h; simp
  | cons b t ih =>
    intro h
    simpa using le_trans (le_max_left h b) (ih (max h b))

lemma foldl_max_mem (t : List ℚ) : ∀ h : ℚ, t.foldl max h ∈ h :: t := by
  induction t with
  | nil => intro h; simp
  | cons b t ih =>
    intro h
    simp only [List.foldl_cons]
    rcases List.mem_cons.mp (ih (max h b)) with h1 | h1
    · rcases max_choice h b with hc | hc
      · rw [h1, hc]; exact List.mem_cons_self _ _
      · rw [h1, hc]; exact List.mem_cons_of_mem _ (List.mem_cons_self _ _)
    · exact List.mem_cons_of_mem _ (List.mem_cons_of_mem _ h1)

lemma le_foldl_max (t : List ℚ) : ∀ h a : ℚ, a ∈ h :: t → a ≤ t.foldl max h := by
  induction t with
  | nil => intro h a ha; simp at ha; simp [ha]
  | cons b t ih =>
    intro h a ha
    simp only [List.foldl_cons]
    rcases List.mem_cons.mp ha with rfl | ha2
    · exact le_trans (le_max_left a b) (le_foldl_max_init t (max a b))
    · rcases List.mem_cons.mp ha2 with rfl | ha3
      · exact le_trans (le_max_right h a) (le_foldl_max_init t (max h a))
      · exact ih (max h b) a (List.mem_cons_of_mem _ ha3)

lemma qListMax_perm (l1 l2 : List ℚ) (hp : l1.Perm l2) : qListMax l1 = qListMax l2 := by
  cases l1 with
  | nil => rw [hp.nil_eq.symm]
  | cons h t =>
    cases l2 with
    | nil => exact absurd hp.symm.nil_eq (by simp)
    | cons h2 t2 =>
      apply le_antisymm
      · exact le_foldl_max t2 h2 _ (hp.subset (foldl_max_mem t h))
      · exact le_foldl_max t h _ (hp.symm.subset (foldl_max_mem t2 h2))

lemma foldl_min_init_le (t : List ℚ) : ∀ h : ℚ, t.foldl min h ≤ h := by
  induction t with
  | nil => intro h; simp
  | cons b t ih =>
    intro h
    simpa using le_trans (ih (min h b)) (min_le_left h b)

lemma foldl_min_mem (t : List ℚ) : ∀ h : ℚ, t.foldl min h ∈ h :: t := by
  induction t with
  | nil => intro h; simp
  | cons b t ih =>
    intro h
    simp only [List.foldl_cons]
    rcases List.mem_cons.mp (ih (min h b)) with h1 | h1
    · rcases min_choice h b with hc | hc
      · rw [h1, hc]; exact List.mem_cons_self _ _
      · rw [h1, hc]; exact List.mem_cons_of_mem _ (List.mem_cons_self _ _)
    · exact List.mem_cons_of_mem _ (List.mem_cons_of_mem _ h1)

lemma foldl_min_le (t : List ℚ) : ∀ h a : ℚ, a ∈ h :: t → t.foldl min h ≤ a := by
  induction t with
  | nil => intro h a ha; simp at ha; simp [ha]
  | cons b t ih =>
    intro h a ha
    simp only [List.foldl_cons]
    rcases List.mem_cons.mp ha with rfl | ha2
    · exact le_trans (foldl_min_init_le t (min a b)) (min_le_left a b)
    · rcases List.mem_cons.mp ha2 with rfl | ha3
      · exact le_trans (foldl_min_init_le t (min h a)) (min_le_right h a)
      · exact ih (min h b) a (List.mem_cons_of_mem _ ha3)

lemma qListMin_perm (l1 l2 : List ℚ) (hp : l1.Perm l2) : qListMin l1 = qListMin l2 := by
  cases l1 with
  | nil => rw [hp.nil_eq.symm]
  | cons h t =>
    cases l2 with
    | nil => exact absurd hp.symm.nil_eq (by simp)
    | cons h2 t2 =>
      apply le_antisymm
      · exact foldl_min_le t h _ (hp.symm.subset (foldl_min_mem t2 h2))
      · exact foldl_min_le t2 h2 _ (hp.subset (foldl_min_mem t h))

lemma isEmpty_of_perm {α : Type} {l1 l2 : List α} (hp : l1.Perm l2) :
    l1.isEmpty = l2.isEmpty := by
  cases l1 with
  | nil => rw [hp.nil_eq.symm]
  | cons h t =>
    cases l2 with
    | nil => exact absurd hp.symm.nil_eq (by simp)
    | cons h2 t2 => rfl

lemma bucket_row_perm (s1 s2 : List PriceSample) (hp : s1.Perm s2) (lbl : String) :
    bucket_row s1 lbl = bucket_row s2 lbl := by
  unfold bucket_row
  dsimp only
  have hgp : (s1.filter (fun s => time_interval s.minutes_since_entry == lbl)).Perm
      (s2.filter (fun s => time_interval s.minutes_since_entry == lbl)) :=
    hp.filter _
  rw [isEmpty_of_perm hgp]
  by_cases hE : (s2.filter (fun s => time_interval s.minutes_since_entry == lbl)).isEmpty
  · rw [if_pos hE, if_pos hE]
  · rw [if_neg hE, if_neg hE]
    have hlen := hgp.length_eq
    have hmap := hgp.map (fun s => s.performance_pct)
    simp only [Option.some.injEq, BucketStat.mk.injEq]
    exact ⟨trivial, hlen, by rw [hmap.sum_eq, hlen], qListMax_perm _ _ hmap,
      qListMin_perm _ _ hmap, (hgp.filter _).length_eq,
      (hgp.filter _).length_eq, (hgp.filter _).length_eq⟩

lemma any_eq_not_isEmpty_filter {α : Type} (l : List α) (p : α → Bool) :
    l.any p = !(l.filter p).isEmpty := by
  induction l with
  | nil => rfl
  | cons h t ih =>
    by_cases hh : p h
    · simp [hh]
    · simp only [List.any_cons, List.filter_cons, hh, Bool.false_or, if_neg]
      simpa using ih

lemma bucket_labels (samples : List PriceSample) : ∀ labels : List String,
    (labels.filterMap (bucket_row samples)).map BucketStat.time_interval =
      labels.filter (fun lbl =>
        samples.any (fun s => time_interval s.minutes_since_entry == lbl)) := by
  intro labels
  induction labels with
  | nil => rfl
  | cons lbl t ih =>
    simp only [List.filterMap_cons, List.filter_cons,
      any_eq_not_isEmpty_filter samples (fun s => time_interval s.minutes_since_entry == lbl)]
    by_cases hE : (samples.filter
        (fun s => time_interval s.minutes_since_entry == lbl)).isEmpty
    · rw [show bucket_row samples lbl = Option.none by unfold bucket_row; rw [if_pos hE]]
      simp [hE, ih]
    · rw [show bucket_row samples lbl =
          Option.some ⟨lbl, _, _, _, _, _, _, _⟩ by unfold bucket_row; rw [if_neg hE]]
      simp [hE, ih]

/-- Claim C9 is false in its concrete example: minute 70 lies in the
(60,120] band, so the samples at 10, 20 and 70 produce the first, second
and FOURTH bands, not the third; no 30-60 row appears. -/
theorem C9_bucket_example_counterexample :
    (analyze_timing_patterns [⟨10, 5⟩, ⟨20, 7⟩, ⟨70, 1⟩]).map
        BucketStat.time_interval = ["0-15 min", "15-30 min", "1-2 hours"] ∧
    time_interval 70 = "1-2 hours" ∧
    ¬ time_interval 70 = "30-60 min" ∧
    ¬ (analyze_timing_patterns [⟨10, 5⟩, ⟨20, 7⟩, ⟨70, 1⟩]).map
        BucketStat.time_interval = ["0-15 min", "15-30 min", "30-60 min"] := by
  with_unfolding_all decide

/-- Amended C9: the bucketizer partitions samples into the fixed ordered
bands 0-15, (15,30], (30,60], (60,120], (120,360], (360,1440], (1440,inf)
emitted in exactly that order regardless of sample order, each populated
band carrying count, mean, max, min and the counts above +10, +50 and
+100 percent, with zero-sample bands omitted; the samples at minutes 10,
20 and 70 yield the first, second and fourth bands (70 lies in (60,120]),
each with count 1. -/
theorem C9_bucketizer_amended :
    (∀ samples : List PriceSample,
      (analyze_timing_patterns samples).map BucketStat.time_interval =
        interval_order.filter (fun lbl =>
          samples.any (fun s => time_interval s.minutes_since_entry == lbl))) ∧
    (∀ s1 s2 : List PriceSample, s1.Perm s2 →
      analyze_timing_patterns s1 = analyze_timing_patterns s2) ∧
    (∀ m : ℤ,
      (0 ≤ m → (time_interval m = "0-15 min" ↔ (0 ≤ m ∧ m ≤ 15))) ∧
      (time_interval m = "15-30 min" ↔ (15 < m ∧ m ≤ 30)) ∧
      (time_interval m = "30-60 min" ↔ (30 < m ∧ m ≤ 60)) ∧
      (time_interval m = "1-2 hours" ↔ (60 < m ∧ m ≤ 120)) ∧
      (time_interval m = "2-6 hours" ↔ (120 < m ∧ m ≤ 360)) ∧
      (time_interval m = "6-24 hours" ↔ (360 < m ∧ m ≤ 1440)) ∧
      (time_interval m = "24+ hours" ↔ 1440 < m)) ∧
    analyze_timing_patterns [⟨10, 5⟩, ⟨20, 7⟩, ⟨70, 1⟩] =
      [⟨"0-15 min", 1, 5, 5, 5, 0, 0, 0⟩, ⟨"15-30 min", 1, 7, 7, 7, 0, 0, 0⟩,
       ⟨"1-2 hours", 1, 1, 1, 1, 0, 0, 0⟩] := by
  refine ⟨fun samples => bucket_labels samples interval_order,
    fun s1 s2 hp => ?_, fun m => ?_, by with_unfolding_all decide⟩
  · unfold analyze_timing_patterns
    rw [funext (bucket_row_perm s1 s2 hp)]
  · unfold time_interval
    split_ifs <;> refine ⟨?_, ?_, ?_, ?_, ?_, ?_, ?_⟩ <;> simp_all <;> omega

/-- Witness for C9: the permutation-invariance conjunct applied to a
concrete reordering of the example samples. -/
theorem C9_bucketizer_amended_witness :
    analyze_timing_patterns [⟨70, 1⟩, ⟨10, 5⟩, ⟨20, 7⟩] =
      analyze_timing_patterns [⟨10, 5⟩, ⟨20, 7⟩, ⟨70, 1⟩] :=
  C9_bucketizer_amended.2.1 [⟨70, 1⟩, ⟨10, 5⟩, ⟨20, 7⟩] [⟨10, 5⟩, ⟨20, 7⟩, ⟨70, 1⟩]
    (by decide)

/-- Witness for C8: open ADDR1 twice on an empty table. -/
theorem C8_paper_open_idempotent_witness :
    openPaperTrade emptyPaperTradesDb 10000 "ADDR1" "MEME" (Option.some 0.001) 25 "t1" =
      (⟨emptyPaperTradesDb.next_id + 1, emptyPaperTradesDb.rows ++
        [⟨emptyPaperTradesDb.next_id, "ADDR1", "MEME", 0.001, 25, 25 / 0.001, "t1", "OPEN"⟩]⟩,
       OpenOutcome.bought) ∧
    openPaperTrade ⟨emptyPaperTradesDb.next_id + 1, emptyPaperTradesDb.rows ++
        [⟨emptyPaperTradesDb.next_id, "ADDR1", "MEME", 0.001, 25, 25 / 0.001, "t1", "OPEN"⟩]⟩
        10000 "ADDR1" "MEME2" (Option.some 0.002) 25 "t2" =
      (⟨emptyPaperTradesDb.next_id + 1, emptyPaperTradesDb.rows ++
        [⟨emptyPaperTradesDb.next_id, "ADDR1", "MEME", 0.001, 25, 25 / 0.001, "t1", "OPEN"⟩]⟩,
       OpenOutcome.skipped_existing) ∧
    List.filter (fun r => r.token_address == "ADDR1" && r.status == "OPEN")
        (emptyPaperTradesDb.rows ++
          [⟨emptyPaperTradesDb.next_id, "ADDR1", "MEME", 0.001, 25, 25 / 0.001, "t1", "OPEN"⟩]) =
      [⟨emptyPaperTradesDb.next_id, "ADDR1", "MEME", 0.001, 25, 25 / 0.001, "t1", "OPEN"⟩] :=
  C8_paper_open_idempotent emptyPaperTradesDb 10000 10000 "ADDR1" "MEME" "MEME2"
    0.001 (Option.some 0.002) 25 25 "t1" "t2"
    (by intro r hr; simp [emptyPaperTradesDb] at hr)
    (by with_unfolding_all decide) (by with_unfolding_all decide)
